import Mathlib

/-!
Shallow embedding of `src/main.rs` of the dotree repository: the program's
startup orchestration (config-path resolution, config-not-found handling,
shell-definition selection from file/environment/default, runtime-config
initialization, and the cursor hide/run/show session wrapper), together
with the helper functions `get_default_config_dir`, `get_shell_from_env`
and `search_local_config`.

Filesystem, environment variables, the config parser and the interactive
`run` loop live outside `main.rs`; they enter the model as fields of an
`Env` record (oracles for the parts whose code is not in the repository
snapshot) or, where the spec pins their behaviour, as definitions marked
`Modelled from the spec`.
-/

namespace Dotree

/-- A filesystem path, as used by `main.rs` through `PathBuf`.
`rev_components` stores the path components innermost-first (the file name,
when present, is the head), so that `join` is cons and `parent` is tail,
matching `PathBuf::join` and `Path::parent`. `absolute` records whether the
path starts at the filesystem root; the root itself (and the empty relative
path) have `rev_components = []` and no parent, as in Rust. -/
structure Path where
  absolute : Bool
  rev_components : List String
deriving DecidableEq, Repr

/-- `PathBuf::join` with a single file-name component. -/
def Path.join (p : Path) (name : String) : Path :=
  ⟨p.absolute, name :: p.rev_components⟩

/-- `Path::parent`: drop the last (innermost) component; the root and the
empty path have no parent. -/
def Path.parent (p : Path) : Option Path :=
  match p.rev_components with
  | [] => none
  | _ :: rest => some ⟨p.absolute, rest⟩

/-- `Path::display`, used in the config-not-found message. -/
def Path.display (p : Path) : String :=
  (if p.absolute then "/" else "") ++ String.intercalate "/" p.rev_components.reverse

/-- Split a character list at a separator, dropping empty pieces; `acc`
holds the characters of the current piece in reverse. -/
def splitSepAux (sep : Char) : List Char → List Char → List String
  | [], acc => if acc = [] then [] else [⟨acc.reverse⟩]
  | c :: cs, acc =>
    if c = sep then
      if acc = [] then splitSepAux sep cs []
      else ⟨acc.reverse⟩ :: splitSepAux sep cs []
    else
      splitSepAux sep cs (c :: acc)

/-- Split a string at a separator character, dropping empty pieces. -/
def splitSep (sep : Char) (s : String) : List String :=
  splitSepAux sep s.data []

/-- The conversion `PathBuf::from(String)` as used on the value of
`XDG_CONFIG_HOME`: a leading `/` makes the path absolute; components are
the non-empty slash-separated pieces. -/
def stringToPath (s : String) : Path :=
  ⟨(match s.data with | '/' :: _ => true | _ => false),
   (splitSep '/' s).reverse⟩

/-- Modelled from the spec: `ShellDef` is "`{ program: string,
invocation_template: ordered sequence of argument fragments containing
exactly one placeholder for the final command string }`". The placeholder
token is written `{}` here. -/
structure ShellDef where
  program : String
  args : List String
deriving DecidableEq, Repr

/-- The placeholder token standing for the final command string inside a
shell invocation template. -/
def placeholderToken : String := "{}"

/-- Modelled from the spec: the recognized shorthand shell names
"(bash, zsh, fish, sh, cmd, powershell/pwsh) expand to built-in
invocation templates". -/
def builtinShellDef (name : String) : Option ShellDef :=
  if name = "bash" then some ⟨"bash", ["-c", placeholderToken]⟩
  else if name = "zsh" then some ⟨"zsh", ["-c", placeholderToken]⟩
  else if name = "fish" then some ⟨"fish", ["-c", placeholderToken]⟩
  else if name = "sh" then some ⟨"sh", ["-c", placeholderToken]⟩
  else if name = "cmd" then some ⟨"cmd", ["/C", placeholderToken]⟩
  else if name = "powershell" then some ⟨"powershell", ["-Command", placeholderToken]⟩
  else if name = "pwsh" then some ⟨"pwsh", ["-Command", placeholderToken]⟩
  else none

/-- Modelled from the spec: the "built-in default" shell definition used
when neither the config file nor the environment provides one
(`ShellDef::default()` in the missing `parser` module). -/
def ShellDef.defaultDef : ShellDef := ⟨"bash", ["-c", placeholderToken]⟩

/-- Modelled from the spec: `parse_shell_string` "parses exactly the
`shell <spec>` production in isolation", where `<spec>` is "either one
recognized shell name or `<program> <args...>` with exactly one argument
equal to a placeholder token"; an unknown single name or a malformed spec
is a parse error (spec error taxonomy: AmbiguousShellSpec/UnknownShellName,
fatal at parse time). Tokens are whitespace-separated. -/
def parse_shell_string (src : String) : Except String ShellDef :=
  match splitSep ' ' src with
  | "shell" :: rest =>
    match rest with
    | [] => .error "malformed shell spec"
    | [name] =>
      match builtinShellDef name with
      | some d => .ok d
      | none => .error ("unknown shell name: " ++ name)
    | prog :: args =>
      if (args.filter (fun a => a = placeholderToken)).length = 1 then
        .ok ⟨prog, args⟩
      else
        .error "malformed shell spec"
  | _ => .error "expected shell directive"

/-- Modelled from the spec: a node of the menu tree is either a menu of
entries `(trigger, label, child)` or an action holding a command
template. -/
inductive Node where
  | menu (entries : List (String × String × Node))
  | action (template : String)

/-- Modelled from the spec: the parse result destructured by `main` —
"`{ menu: Node, shell_def: optional ShellDef, snippets: mapping(name →
template) }`". -/
structure Config where
  menu : List (String × String × Node)
  shell_def : Option ShellDef
  snippet_table : List (String × String)

/-- `get_shell_from_env` from `main.rs`: when the `DT_DEFAULT_SHELL`
environment variable is present (its value is passed in as `envVar`),
wrap it as `shell <value>` and parse it with `parse_shell_string`,
propagating a parse error; when absent, yield no shell definition. -/
def get_shell_from_env (envVar : Option String) : Except String (Option ShellDef) :=
  match envVar with
  | some src =>
    match parse_shell_string ("shell " ++ src) with
    | .ok d => .ok (some d)
    | .error e => .error e
  | none => .ok none

/-- Lines 50–53 of `main.rs`: `env_shell` is the environment-provided
shell (or the built-in default when the variable is absent), with a parse
error of the environment value propagated by `?` before the file
definition is consulted; the session shell is then
`file_shell_def.unwrap_or(env_shell)`. The `anyhow` context string is
modelled as a message prefix. -/
def selectedShell (fileDef : Option ShellDef) (envVar : Option String) :
    Except String ShellDef :=
  match get_shell_from_env envVar with
  | .error e => .error ("Getting Shell from Env: " ++ e)
  | .ok envShellOpt => .ok (fileDef.getD (envShellOpt.getD ShellDef.defaultDef))

/-- `get_default_config_dir` from `main.rs`: the value of
`XDG_CONFIG_HOME` (converted to a path) whenever that variable is set,
otherwise the platform config directory reported by `dirs::config_dir()`
(an oracle here, since it is OS glue). -/
def get_default_config_dir (xdg : Option String) (platformDir : Option Path) :
    Option Path :=
  match xdg with
  | some path => some (stringToPath path)
  | none => platformDir

/-- The loop body of `search_local_config`: starting from the directory
whose reversed component list is `rcomps`, try `dir.join "dotree.dt"`;
on a hit return it, otherwise move to the parent directory (drop the
innermost component) until a directory with no parent is reached. -/
def searchLoop (fs : Path → Bool) (abs : Bool) : List String → Option Path
  | [] =>
    let attempt := Path.join ⟨abs, []⟩ "dotree.dt"
    if fs attempt then some attempt else none
  | c :: rest =>
    let attempt := Path.join ⟨abs, c :: rest⟩ "dotree.dt"
    if fs attempt then some attempt else searchLoop fs abs rest

/-- `search_local_config` from `main.rs`: walk from the current directory
up through its ancestors looking for `dotree.dt`. `fs` is the
`Path::exists` oracle and `cwd` the current directory; the only failure
of the Rust function (failing to read the current directory) cannot occur
here because `cwd` is supplied, so the `Result` layer is dropped. -/
def search_local_config (fs : Path → Bool) (cwd : Path) : Option Path :=
  searchLoop fs cwd.absolute cwd.rev_components

/-- The possible terminations of `main`: returning `Ok(())` (exit 0),
returning `Err` with a message (`anyhow` prints it and the process exits
non-zero), an explicit `exit(code)`, or a panic (from `unwrap`). -/
inductive Outcome where
  | ok
  | err (msg : String)
  | exitCode (code : Nat)
  | panicked
deriving DecidableEq, Repr

/-- Observable side effects of `main`, in order of occurrence: messages
printed to stderr, the attempt to parse a config source, the one-time
`rt_conf::init(local_conf_dir, shell)` call, hiding the cursor (emitted
when hiding succeeded), entering the interactive `run`, and the attempt
to show the cursor again. -/
inductive Event where
  | eprintln (msg : String)
  | parseConfig (src : String)
  | initRtConf (workingDir : Option Path) (shell : ShellDef)
  | hideCursor
  | runSession
  | showCursor
deriving DecidableEq, Repr

/-- Everything `main` reads from outside `main.rs`: the parsed
command-line arguments, the process environment, the filesystem, and —
as oracles, because their code is outside the repository snapshot — the
config parser and the result of the interactive `run` loop, plus the
terminal cursor operations' results. -/
structure Env where
  /-- `--local-mode` flag. -/
  local_mode : Bool
  /-- `--conf-file` argument. -/
  conf_file : Option Path
  /-- Current working directory (`std::env::current_dir`). -/
  cwd : Path
  /-- `Path::exists`. -/
  fs_exists : Path → Bool
  /-- `fs::read_to_string`. -/
  read_file : Path → Except String String
  /-- Value of `XDG_CONFIG_HOME` when set. -/
  xdg_config_home : Option String
  /-- `dirs::config_dir()`. -/
  platform_config_dir : Option Path
  /-- Value of `DT_DEFAULT_SHELL` when set. -/
  dt_default_shell : Option String
  /-- Oracle for `parser::parse` (code not in the snapshot). -/
  parse : String → Except String Config
  /-- Oracle for the result of `core::run` on this run's input. -/
  run_result : Except String Unit
  /-- Result of `Term::hide_cursor`. -/
  hide_cursor : Except String Unit
  /-- Result of `Term::show_cursor`. -/
  show_cursor : Except String Unit

/-- Lines 16–33 of `main.rs`: resolve `(conf_path, local_conf_dir)`.
In local mode, search upward for `dotree.dt`; on a hit the config
directory is `path.parent().unwrap()` (a `None` parent would panic),
on a miss print a message and `exit(1)`. Otherwise use `--conf-file`
when given, else the default config dir joined with `dotree.dt`,
failing when no default directory can be determined. -/
def resolveConfPath (env : Env) : Except (Outcome × List Event) (Path × Option Path) :=
  if env.local_mode then
    match search_local_config env.fs_exists env.cwd with
    | some path =>
      match path.parent with
      | some conf_dir => .ok (path, some conf_dir)
      | none => .error (.panicked, [])
    | none => .error (.exitCode 1, [.eprintln "Couldnt find a local config"])
  else
    match env.conf_file with
    | some p => .ok (p, none)
    | none =>
      match get_default_config_dir env.xdg_config_home env.platform_config_dir with
      | some d => .ok (d.join "dotree.dt", none)
      | none => .error (.err "Couldn't determin config dir", [])

/-- `Result<(), _>` of `run` as the final `Outcome` of `main`. -/
def runOutcome : Except String Unit → Outcome
  | .ok _ => .ok
  | .error e => .err e

/-- The config-not-found message of lines 36–39. -/
def missingConfMsg (p : Path) : String :=
  "Expected config file at " ++ p.display ++ ", but couldn't find it. Please create one."

/-- `main` from `main.rs` as a pure function from the outside world to
the process outcome and the ordered trace of observable events: resolve
the config path; bail out with a message and exit 1 when it does not
exist; read and parse it; select the shell (file directive, else
environment, else default); initialize the runtime config; then hide the
cursor, run the interactive session, attempt to show the cursor again
(a failure there is only a warning), and return the session's result.
`anyhow` context strings are modelled as message prefixes. -/
def main (env : Env) : Outcome × List Event :=
  match resolveConfPath env with
  | .error r => r
  | .ok (conf_path, local_conf_dir) =>
    if env.fs_exists conf_path then
      match env.read_file conf_path with
      | .error e => (.err ("loading config: " ++ e), [])
      | .ok conf_src =>
        match env.parse conf_src with
        | .error e => (.err ("Parsing Config: " ++ e), [.parseConfig conf_src])
        | .ok conf =>
          match selectedShell conf.shell_def env.dt_default_shell with
          | .error e => (.err e, [.parseConfig conf_src])
          | .ok shell =>
            match env.hide_cursor with
            | .error e =>
              (.err e, [.parseConfig conf_src, .initRtConf local_conf_dir shell])
            | .ok _ =>
              let warn : List Event :=
                match env.show_cursor with
                | .ok _ => []
                | .error e =>
                  [.eprintln ("Warning, couldn't show cursor again:\n" ++ e)]
              (runOutcome env.run_result,
               [.parseConfig conf_src, .initRtConf local_conf_dir shell,
                .hideCursor, .runSession, .showCursor] ++ warn)
    else
      (.exitCode 1, [.eprintln (missingConfMsg conf_path)])

/-- The ancestor chain of the directory whose reversed component list is
`rcomps`: the directory itself, then its parent, and so on down to the
root (or the empty relative path). -/
def ancestors (abs : Bool) : List String → List Path
  | [] => [⟨abs, []⟩]
  | c :: rest => ⟨abs, c :: rest⟩ :: ancestors abs rest

/-- The chain of directories visited by the upward search: `p`, its
parent, its parent's parent, …, ending at the component-less path. -/
def ancestorChain (p : Path) : List Path :=
  ancestors p.absolute p.rev_components

/-- Fuel-indexed version of the `search_local_config` loop: `none` means
the fuel ran out before the loop finished; `some r` means the loop
finished with result `r` within the given number of iterations. -/
def searchLoopFuel (fs : Path → Bool) (abs : Bool) : Nat → List String → Option (Option Path)
  | 0, _ => none
  | _ + 1, [] =>
    let attempt := Path.join ⟨abs, []⟩ "dotree.dt"
    some (if fs attempt then some attempt else none)
  | fuel + 1, c :: rest =>
    let attempt := Path.join ⟨abs, c :: rest⟩ "dotree.dt"
    if fs attempt then some (some attempt) else searchLoopFuel fs abs fuel rest

theorem ancestorChain_eq_parent_chain (p : Path) :
    ancestorChain p
      = p :: (match p.parent with
              | none => []
              | some q => ancestorChain q) := by
  obtain ⟨abs, r⟩ := p
  cases r <;> rfl

theorem searchLoop_eq_find (fs : Path → Bool) (abs : Bool) (r : List String) :
    searchLoop fs abs r
      = ((ancestors abs r).find? (fun d => fs (d.join "dotree.dt"))).map
          (fun d => d.join "dotree.dt") := by
  induction r with
  | nil =>
    by_cases h : fs (Path.join ⟨abs, []⟩ "dotree.dt") <;>
      simp [searchLoop, ancestors, List.find?, h]
  | cons c rest ih =>
    by_cases h : fs (Path.join ⟨abs, c :: rest⟩ "dotree.dt") <;>
      simp [searchLoop, ancestors, List.find?, h, ih]

theorem searchLoop_shape (fs : Path → Bool) (abs : Bool) :
    ∀ r p, searchLoop fs abs r = some p → ∃ d : Path, p = d.join "dotree.dt" := by
  intro r
  induction r with
  | nil =>
    intro p h
    by_cases hf : fs (Path.join ⟨abs, []⟩ "dotree.dt")
    · exact ⟨⟨abs, []⟩, by simpa [searchLoop, hf] using h.symm⟩
    · simp [searchLoop, hf] at h
  | cons c rest ih =>
    intro p h
    by_cases hf : fs (Path.join ⟨abs, c :: rest⟩ "dotree.dt")
    · exact ⟨⟨abs, c :: rest⟩, by simpa [searchLoop, hf] using h.symm⟩
    · exact ih p (by simpa [searchLoop, hf] using h)

theorem parent_join (d : Path) (name : String) :
    (d.join name).parent = some d := rfl

theorem searchLoopFuel_sufficient (fs : Path → Bool) (abs : Bool) :
    ∀ r fuel, r.length < fuel →
      searchLoopFuel fs abs fuel r = some (searchLoop fs abs r) := by
  intro r
  induction r with
  | nil =>
    intro fuel hf
    match fuel, hf with
    | fuel + 1, _ => rfl
  | cons c rest ih =>
    intro fuel hf
    match fuel, hf with
    | fuel + 1, hf =>
      by_cases h : fs (Path.join ⟨abs, c :: rest⟩ "dotree.dt") <;>
        simp [searchLoopFuel, searchLoop, h, ih fuel (by simpa using hf)]

theorem resolveConfPath_no_panic (env : Env) :
    ∀ r, resolveConfPath env = .error r → r.1 ≠ Outcome.panicked := by
  intro r hr
  unfold resolveConfPath at hr
  by_cases hl : env.local_mode
  · simp only [hl, if_true] at hr
    cases hsearch : search_local_config env.fs_exists env.cwd with
    | none =>
      rw [hsearch] at hr
      cases hr
      decide
    | some path =>
      obtain ⟨d, hd⟩ := searchLoop_shape env.fs_exists env.cwd.absolute
        env.cwd.rev_components path hsearch
      rw [hsearch, hd] at hr
      simp [parent_join] at hr
  · simp only [hl, if_false, Bool.false_eq_true] at hr
    cases hcf : env.conf_file with
    | some p => rw [hcf] at hr; cases hr
    | none =>
      rw [hcf] at hr
      cases hdd : get_default_config_dir env.xdg_config_home env.platform_config_dir with
      | some d => rw [hdd] at hr; cases hr
      | none =>
        rw [hdd] at hr
        cases hr
        decide

theorem main_no_panic (env : Env) : (main env).1 ≠ Outcome.panicked := by
  unfold main
  cases hrc : resolveConfPath env with
  | error r => exact resolveConfPath_no_panic env r hrc
  | ok v =>
    obtain ⟨conf_path, lcd⟩ := v
    by_cases hex : env.fs_exists conf_path
    · cases hrf : env.read_file conf_path with
      | error e => simp [hex, hrf]
      | ok src =>
        cases hp : env.parse src with
        | error e => simp [hex, hrf, hp]
        | ok conf =>
          cases hs : selectedShell conf.shell_def env.dt_default_shell with
          | error e => simp [hex, hrf, hp, hs]
          | ok shell =>
            cases hh : env.hide_cursor with
            | error e => simp [hex, hrf, hp, hs, hh]
            | ok u =>
              cases hr : env.run_result <;>
                simp [hex, hrf, hp, hs, hh, hr, runOutcome]
    · simp [hex]

theorem resolveConfPath_error_events (env : Env) (r : Outcome × List Event)
    (h : resolveConfPath env = .error r) :
    ∀ e ∈ r.2, ∃ m, e = Event.eprintln m := by
  unfold resolveConfPath at h
  by_cases hl : env.local_mode
  · simp only [hl, if_true] at h
    cases hsearch : search_local_config env.fs_exists env.cwd with
    | none =>
      rw [hsearch] at h
      cases h
      intro e he
      simp only [List.mem_singleton] at he
      exact ⟨_, he⟩
    | some path =>
      obtain ⟨d, hd⟩ := searchLoop_shape env.fs_exists env.cwd.absolute
        env.cwd.rev_components path hsearch
      rw [hsearch, hd] at h
      simp [parent_join] at h
  · simp only [hl, if_false, Bool.false_eq_true] at h
    cases hcf : env.conf_file with
    | some p => rw [hcf] at h; cases h
    | none =>
      rw [hcf] at h
      cases hdd : get_default_config_dir env.xdg_config_home env.platform_config_dir with
      | some d => rw [hdd] at h; cases h
      | none =>
        rw [hdd] at h
        cases h
        intro e he
        simp at he

theorem resolveConfPath_ok_inv (env : Env) (p : Path) (lcd : Option Path)
    (h : resolveConfPath env = .ok (p, lcd)) :
    (env.local_mode = true →
       ∃ d : Path, search_local_config env.fs_exists env.cwd = some (d.join "dotree.dt")
         ∧ p = d.join "dotree.dt" ∧ lcd = some d)
    ∧ (env.local_mode = false → lcd = none) := by
  constructor
  · intro hl
    unfold resolveConfPath at h
    simp only [hl, if_true] at h
    cases hsearch : search_local_config env.fs_exists env.cwd with
    | none => rw [hsearch] at h; cases h
    | some path =>
      obtain ⟨d, hd⟩ := searchLoop_shape env.fs_exists env.cwd.absolute
        env.cwd.rev_components path hsearch
      rw [hsearch, hd] at h
      simp only [parent_join] at h
      cases h
      exact ⟨d, by rw [hd], rfl, rfl⟩
  · intro hl
    unfold resolveConfPath at h
    simp only [hl, if_false, Bool.false_eq_true] at h
    cases hcf : env.conf_file with
    | some q => rw [hcf] at h; cases h; rfl
    | none =>
      rw [hcf] at h
      cases hdd : get_default_config_dir env.xdg_config_home env.platform_config_dir with
      | some d => rw [hdd] at h; cases h; rfl
      | none => rw [hdd] at h; cases h

theorem initRtConf_mem (env : Env) (wd : Option Path) (sh : ShellDef)
    (h : Event.initRtConf wd sh ∈ (main env).2) :
    ∃ p lcd src conf,
      resolveConfPath env = .ok (p, lcd)
      ∧ env.fs_exists p = true
      ∧ env.read_file p = .ok src
      ∧ env.parse src = .ok conf
      ∧ selectedShell conf.shell_def env.dt_default_shell = .ok sh
      ∧ wd = lcd := by
  unfold main at h
  cases hrc : resolveConfPath env with
  | error r =>
    rw [hrc] at h
    obtain ⟨m, hm⟩ := resolveConfPath_error_events env r hrc _ h
    cases hm
  | ok v =>
    obtain ⟨conf_path, lcd⟩ := v
    rw [hrc] at h
    by_cases hex : env.fs_exists conf_path
    · cases hrf : env.read_file conf_path with
      | error e => simp [hex, hrf] at h
      | ok src =>
        cases hp : env.parse src with
        | error e => simp [hex, hrf, hp] at h
        | ok conf =>
          cases hs : selectedShell conf.shell_def env.dt_default_shell with
          | error e => simp [hex, hrf, hp, hs] at h
          | ok shell =>
            cases hh : env.hide_cursor with
            | error e =>
              simp [hex, hrf, hp, hs, hh] at h
              obtain ⟨hwd, hsh⟩ := h
              exact ⟨conf_path, lcd, src, conf, rfl, hex, hrf, hp, by rw [hsh]; exact hs, hwd⟩
            | ok u =>
              cases hsc : env.show_cursor with
              | ok w =>
                simp [hex, hrf, hp, hs, hh, hsc] at h
                obtain ⟨hwd, hsh⟩ := h
                exact ⟨conf_path, lcd, src, conf, rfl, hex, hrf, hp, by rw [hsh]; exact hs, hwd⟩
              | error e =>
                simp [hex, hrf, hp, hs, hh, hsc] at h
                obtain ⟨hwd, hsh⟩ := h
                exact ⟨conf_path, lcd, src, conf, rfl, hex, hrf, hp, by rw [hsh]; exact hs, hwd⟩
    · simp [hex] at h

/-- C7: the upward local-config search starts at the current directory and
visits each ancestor in order toward the root; it returns the `dotree.dt`
of the nearest (first) ancestor directory containing one, and returns
`none` exactly when no directory on the ancestor chain contains one. -/
theorem search_local_config_nearest_ancestor (fs : Path → Bool) (cwd : Path) :
    search_local_config fs cwd
      = ((ancestorChain cwd).find? (fun d => fs (d.join "dotree.dt"))).map
          (fun d => d.join "dotree.dt")
    ∧ (search_local_config fs cwd = none
        ↔ ∀ d ∈ ancestorChain cwd, fs (d.join "dotree.dt") = false) := by
  constructor
  · exact searchLoop_eq_find fs cwd.absolute cwd.rev_components
  · rw [search_local_config, searchLoop_eq_find]
    simp [ancestorChain, List.find?_eq_none]

/-- C8: every path returned by the local-config search is a directory
joined with the file name `dotree.dt`, hence has a parent; consequently
the `unwrap` on `path.parent()` in `main` can never panic. -/
theorem search_result_has_parent (fs : Path → Bool) (cwd : Path) (p : Path)
    (h : search_local_config fs cwd = some p) :
    (∃ d : Path, p = d.join "dotree.dt" ∧ p.parent = some d)
    ∧ ∀ env : Env, (main env).1 ≠ Outcome.panicked := by
  refine ⟨?_, fun env => main_no_panic env⟩
  obtain ⟨d, hd⟩ := searchLoop_shape fs cwd.absolute cwd.rev_components p h
  exact ⟨d, hd, by rw [hd]; exact parent_join d _⟩

theorem search_result_has_parent_witness :
    (∃ d : Path, (⟨true, ["dotree.dt", "a"]⟩ : Path) = d.join "dotree.dt"
       ∧ (Path.parent ⟨true, ["dotree.dt", "a"]⟩) = some d)
    ∧ ∀ env : Env, (main env).1 ≠ Outcome.panicked :=
  search_result_has_parent
    (fun p => p == (⟨true, ["dotree.dt", "a"]⟩ : Path))
    ⟨true, ["b", "a"]⟩ ⟨true, ["dotree.dt", "a"]⟩ (by decide)

/-- C9: the upward local-config search terminates for every starting
directory: the loop finishes within one more iteration than the number
of components of the starting directory, and its fuel-indexed version
run with that bound agrees with the total function. -/
theorem search_local_config_terminates (fs : Path → Bool) (cwd : Path) :
    searchLoopFuel fs cwd.absolute (cwd.rev_components.length + 1) cwd.rev_components
      = some (search_local_config fs cwd) :=
  searchLoopFuel_sufficient fs cwd.absolute cwd.rev_components _ (Nat.lt_succ_self _)

/-- C1: the session shell is selected with precedence file directive,
then environment variable (parsed through the shell-directive grammar),
then built-in default: a file directive always wins when selection
succeeds; with no file directive a successfully parsed environment value
is used; with neither, the built-in default; and every shell passed to
`rt_conf::init` by `main` is a result of this selection. -/
theorem shell_selection_precedence :
    (∀ (s d : ShellDef) (envVar : Option String),
       selectedShell (some s) envVar = .ok d → d = s)
    ∧ (∀ (v : String) (d : ShellDef),
         parse_shell_string ("shell " ++ v) = .ok d →
           selectedShell none (some v) = .ok d)
    ∧ selectedShell none none = .ok ShellDef.defaultDef
    ∧ (∀ (env : Env) (wd : Option Path) (sh : ShellDef),
         Event.initRtConf wd sh ∈ (main env).2 →
           ∃ fileDef, selectedShell fileDef env.dt_default_shell = .ok sh) := by
  refine ⟨?_, ?_, rfl, ?_⟩
  · intro s d envVar h
    unfold selectedShell at h
    cases hg : get_shell_from_env envVar with
    | error e => rw [hg] at h; cases h
    | ok o => rw [hg] at h; cases h; rfl
  · intro v d h
    unfold selectedShell get_shell_from_env
    simp [h]
  · intro env wd sh h
    obtain ⟨p, lcd, src, conf, _, _, _, _, hs, _⟩ := initRtConf_mem env wd sh h
    exact ⟨conf.shell_def, hs⟩

/-- C2: once the cursor has been hidden, showing it again is attempted on
every exit of the session, the final outcome is exactly the result of
`run` whether it succeeded or failed, and a failure of the restore is
only reported as a stderr warning. -/
theorem cursor_restore_on_all_paths (env : Env)
    (h : Event.hideCursor ∈ (main env).2) :
    (main env).1 = runOutcome env.run_result
    ∧ Event.showCursor ∈ (main env).2
    ∧ (∀ e, env.show_cursor = .error e →
        Event.eprintln ("Warning, couldn't show cursor again:\n" ++ e) ∈ (main env).2) := by
  unfold main at h ⊢
  cases hrc : resolveConfPath env with
  | error r =>
    rw [hrc] at h
    obtain ⟨m, hm⟩ := resolveConfPath_error_events env r hrc Event.hideCursor h
    cases hm
  | ok v =>
    obtain ⟨conf_path, lcd⟩ := v
    rw [hrc] at h
    by_cases hex : env.fs_exists conf_path
    · cases hrf : env.read_file conf_path with
      | error e => simp [hex, hrf] at h
      | ok src =>
        cases hp : env.parse src with
        | error e => simp [hex, hrf, hp] at h
        | ok conf =>
          cases hs : selectedShell conf.shell_def env.dt_default_shell with
          | error e => simp [hex, hrf, hp, hs] at h
          | ok shell =>
            cases hh : env.hide_cursor with
            | error e => simp [hex, hrf, hp, hs, hh] at h
            | ok u =>
              cases hsc : env.show_cursor with
              | ok w =>
                refine ⟨?_, ?_, ?_⟩
                · simp [hex, hrf, hp, hs, hh, hsc]
                · simp [hex, hrf, hp, hs, hh, hsc]
                · intro e he
                  cases he
              | error e0 =>
                refine ⟨?_, ?_, ?_⟩
                · simp [hex, hrf, hp, hs, hh, hsc]
                · simp [hex, hrf, hp, hs, hh, hsc]
                · intro e he
                  cases he
                  simp [hex, hrf, hp, hs, hh, hsc]
    · simp [hex] at h

/-- C3: when the resolved config path does not exist, `main` prints a
message naming that path and exits with status 1, without parsing any
config, initializing the runtime configuration, or running the
interactive session. -/
theorem missing_config_exits_without_session (env : Env) (p : Path) (lcd : Option Path)
    (h1 : resolveConfPath env = .ok (p, lcd)) (h2 : env.fs_exists p = false) :
    main env = (Outcome.exitCode 1, [Event.eprintln (missingConfMsg p)])
    ∧ (∀ src, Event.parseConfig src ∉ (main env).2)
    ∧ (∀ wd sh, Event.initRtConf wd sh ∉ (main env).2)
    ∧ Event.runSession ∉ (main env).2 := by
  have hm : main env = (Outcome.exitCode 1, [Event.eprintln (missingConfMsg p)]) := by
    unfold main
    rw [h1]
    simp [h2]
  refine ⟨hm, ?_, ?_, ?_⟩ <;> simp [hm]

/-- C4: the working-directory override handed to `rt_conf::init` is the
directory containing the discovered local config file when local mode is
active, and is absent in every non-local invocation. -/
theorem local_mode_wd_override (env : Env) (wd : Option Path) (sh : ShellDef)
    (h : Event.initRtConf wd sh ∈ (main env).2) :
    (env.local_mode = true →
       ∃ d : Path, search_local_config env.fs_exists env.cwd = some (d.join "dotree.dt")
         ∧ wd = some d)
    ∧ (env.local_mode = false → wd = none) := by
  obtain ⟨p, lcd, src, conf, hrc, _, _, _, _, hwd⟩ := initRtConf_mem env wd sh h
  obtain ⟨hloc, hnon⟩ := resolveConfPath_ok_inv env p lcd hrc
  constructor
  · intro hl
    obtain ⟨d, hsearch, hp, hlcd⟩ := hloc hl
    exact ⟨d, hsearch, by rw [hwd, hlcd]⟩
  · intro hl
    rw [hwd, hnon hl]

/-- C6: when parsing the config source fails, `main` returns a failure
carrying a human-readable message, and the interactive session is never
entered: no `run`, no cursor hiding, no runtime-config initialization. -/
theorem parse_failure_aborts_session (env : Env) (p : Path) (lcd : Option Path)
    (src e : String)
    (h1 : resolveConfPath env = .ok (p, lcd))
    (h2 : env.fs_exists p = true)
    (h3 : env.read_file p = .ok src)
    (h4 : env.parse src = .error e) :
    (main env).1 = Outcome.err ("Parsing Config: " ++ e)
    ∧ Event.runSession ∉ (main env).2
    ∧ Event.hideCursor ∉ (main env).2
    ∧ (∀ wd sh, Event.initRtConf wd sh ∉ (main env).2) := by
  have hm : main env = (Outcome.err ("Parsing Config: " ++ e), [Event.parseConfig src]) := by
    unfold main
    rw [h1]
    simp [h2, h3, h4]
  refine ⟨by rw [hm], ?_, ?_, ?_⟩ <;> simp [hm]

/-- C10: with no explicit config argument and no local mode, the config
path is the default directory joined with `dotree.dt`, where the default
directory is the value of `XDG_CONFIG_HOME` whenever it is set (any
string value, empty or relative included) and the platform config
directory only when it is unset; when neither yields a directory, `main`
fails. -/
theorem default_config_path_selection (env : Env)
    (hl : env.local_mode = false) (hc : env.conf_file = none) :
    (∀ s, env.xdg_config_home = some s →
       resolveConfPath env = .ok ((stringToPath s).join "dotree.dt", none))
    ∧ (env.xdg_config_home = none → ∀ d, env.platform_config_dir = some d →
         resolveConfPath env = .ok (d.join "dotree.dt", none))
    ∧ (env.xdg_config_home = none → env.platform_config_dir = none →
         main env = (Outcome.err "Couldn't determin config dir", [])) := by
  refine ⟨?_, ?_, ?_⟩
  · intro s hx
    unfold resolveConfPath
    simp [hl, hc, get_default_config_dir, hx]
  · intro hx d hd
    unfold resolveConfPath
    simp [hl, hc, get_default_config_dir, hx, hd]
  · intro hx hd
    have hr : resolveConfPath env
        = .error (Outcome.err "Couldn't determin config dir", []) := by
      unfold resolveConfPath
      simp [hl, hc, get_default_config_dir, hx, hd]
    unfold main
    rw [hr]

/-- An environment-variable state whose shell value, when present,
parses successfully under the shell-directive grammar. -/
def envShellWellFormed : Option String → Prop
  | none => True
  | some v => ∃ d, parse_shell_string ("shell " ++ v) = .ok d

theorem selectedShell_file_wins (s : ShellDef) (ev : Option String)
    (h : envShellWellFormed ev) : selectedShell (some s) ev = .ok s := by
  cases ev with
  | none => rfl
  | some v =>
    obtain ⟨d, hd⟩ := h
    unfold selectedShell get_shell_from_env
    simp [hd]

/-- C5 (amended): when the parsed config file contains a shell directive
and the shell environment variable, in each of two runs, is absent or
parses successfully, the two runs have identical observable outcomes;
the restriction to successfully parsing values is forced because `main`
parses the environment value (propagating its error with `?`) before
consulting the file's directive. -/
theorem env_shell_noninterference (env : Env) (e1 e2 : Option String)
    (hconf : ∀ src conf, env.parse src = .ok conf → conf.shell_def.isSome = true)
    (h1 : envShellWellFormed e1) (h2 : envShellWellFormed e2) :
    main { env with dt_default_shell := e1 }
      = main { env with dt_default_shell := e2 } := by
  have r1 : resolveConfPath { env with dt_default_shell := e1 } = resolveConfPath env := rfl
  have r2 : resolveConfPath { env with dt_default_shell := e2 } = resolveConfPath env := rfl
  unfold main
  rw [r1, r2]
  cases hrc : resolveConfPath env with
  | error r => rfl
  | ok v =>
    obtain ⟨p, lcd⟩ := v
    dsimp only
    by_cases hex : env.fs_exists p
    · simp only [hex, if_true]
      cases hrf : env.read_file p with
      | error e => rfl
      | ok src =>
        dsimp only
        cases hp : env.parse src with
        | error e => rfl
        | ok conf =>
          dsimp only
          obtain ⟨s, hss⟩ := Option.isSome_iff_exists.mp (hconf src conf hp)
          rw [hss]
          rw [selectedShell_file_wins s e1 h1, selectedShell_file_wins s e2 h2]
    · simp only [hex]
      rfl

/-- A concrete environment in which every step of `main` succeeds: an
explicit config file that exists, reads and parses (with no shell
directive), no relevant environment variables, and a successful run. -/
def baseEnv : Env where
  local_mode := false
  conf_file := some ⟨true, ["dotree.dt", "cfg"]⟩
  cwd := ⟨true, ["home"]⟩
  fs_exists := fun _ => true
  read_file := fun _ => .ok "menu {}"
  xdg_config_home := none
  platform_config_dir := some ⟨true, ["cfg"]⟩
  dt_default_shell := none
  parse := fun _ => .ok ⟨[], none, []⟩
  run_result := .ok ()
  hide_cursor := .ok ()
  show_cursor := .ok ()

/-- `baseEnv` in local mode: the filesystem holds `/repo/dotree.dt` and
the current directory is `/repo/sub`. -/
def envLocal : Env :=
  { baseEnv with
    local_mode := true
    conf_file := none
    fs_exists := fun p => p == (⟨true, ["dotree.dt", "repo"]⟩ : Path)
    cwd := ⟨true, ["sub", "repo"]⟩ }

/-- `baseEnv` with a failing cursor restore. -/
def envShowFail : Env := { baseEnv with show_cursor := .error "io error" }

/-- `baseEnv` with a filesystem on which no path exists. -/
def envMissing : Env := { baseEnv with fs_exists := fun _ => false }

/-- `baseEnv` with a config source that fails to parse. -/
def envParseFail : Env := { baseEnv with parse := fun _ => .error "unexpected token" }

/-- `baseEnv` with no explicit config file and `XDG_CONFIG_HOME` set to
a relative value. -/
def envXdg : Env := { baseEnv with conf_file := none, xdg_config_home := some "xdg" }

/-- `baseEnv` with no explicit config file, `XDG_CONFIG_HOME` unset and
no platform config directory. -/
def envNoDir : Env := { baseEnv with conf_file := none, platform_config_dir := none }

/-- A parse result whose config defines a shell directive. -/
def confWithShell : Config := ⟨[], some ⟨"zsh", ["-c", placeholderToken]⟩, []⟩

/-- `baseEnv` with a config that parses to a shell directive and a
well-formed shell environment variable. -/
def envCexA : Env :=
  { baseEnv with
    parse := fun _ => .ok confWithShell
    dt_default_shell := some "bash" }

/-- `envCexA` with the shell environment variable changed to a malformed
value; nothing else differs. -/
def envCexB : Env := { envCexA with dt_default_shell := some "nosuchshell" }

/-- C5 (counterexample): two runs that differ only in the malformedness
of the shell environment variable, although the parsed config file
contains a shell directive, have different observable outcomes: the run
with a well-formed value succeeds, the one with a malformed value fails
before the session, because `main` parses the environment value before
consulting the file's shell directive. -/
theorem env_shell_interference_cex :
    envCexB = { envCexA with dt_default_shell := some "nosuchshell" }
    ∧ envCexA.parse "menu {}" = .ok confWithShell
    ∧ confWithShell.shell_def.isSome = true
    ∧ (main envCexA).1 = Outcome.ok
    ∧ (main envCexB).1
        = Outcome.err ("Getting Shell from Env: " ++ "unknown shell name: nosuchshell")
    ∧ main envCexA ≠ main envCexB := by
  refine ⟨rfl, rfl, rfl, rfl, rfl, ?_⟩
  intro hcontra
  exact absurd (congrArg Prod.fst hcontra) (by decide)

theorem env_shell_noninterference_witness :
    main { envCexA with dt_default_shell := none }
      = main { envCexA with dt_default_shell := some "bash" } :=
  env_shell_noninterference envCexA none (some "bash")
    (fun _ conf h => by cases h; rfl)
    trivial ⟨⟨"bash", ["-c", placeholderToken]⟩, rfl⟩

theorem shell_selection_precedence_witness :
    ((⟨"mysh", ["-c", "{}"]⟩ : ShellDef) = ⟨"mysh", ["-c", "{}"]⟩)
    ∧ selectedShell none (some "zsh") = .ok ⟨"zsh", ["-c", "{}"]⟩
    ∧ (∃ fileDef, selectedShell fileDef baseEnv.dt_default_shell = .ok ShellDef.defaultDef) :=
  ⟨shell_selection_precedence.1 ⟨"mysh", ["-c", "{}"]⟩ ⟨"mysh", ["-c", "{}"]⟩ none rfl,
   shell_selection_precedence.2.1 "zsh" ⟨"zsh", ["-c", "{}"]⟩ rfl,
   shell_selection_precedence.2.2.2 baseEnv none ShellDef.defaultDef (by decide)⟩

theorem cursor_restore_on_all_paths_witness :
    ((main baseEnv).1 = runOutcome baseEnv.run_result
      ∧ Event.showCursor ∈ (main baseEnv).2)
    ∧ Event.eprintln ("Warning, couldn't show cursor again:\n" ++ "io error")
        ∈ (main envShowFail).2 :=
  ⟨⟨(cursor_restore_on_all_paths baseEnv (by decide)).1,
    (cursor_restore_on_all_paths baseEnv (by decide)).2.1⟩,
   (cursor_restore_on_all_paths envShowFail (by decide)).2.2 "io error" rfl⟩

theorem missing_config_exits_witness :
    main envMissing = (Outcome.exitCode 1,
      [Event.eprintln (missingConfMsg ⟨true, ["dotree.dt", "cfg"]⟩)])
    ∧ Event.runSession ∉ (main envMissing).2 :=
  ⟨(missing_config_exits_without_session envMissing ⟨true, ["dotree.dt", "cfg"]⟩
      none rfl rfl).1,
   (missing_config_exits_without_session envMissing ⟨true, ["dotree.dt", "cfg"]⟩
      none rfl rfl).2.2.2⟩

theorem local_mode_wd_override_witness :
    (envLocal.local_mode = true →
       ∃ d : Path, search_local_config envLocal.fs_exists envLocal.cwd
           = some (d.join "dotree.dt")
         ∧ (some (⟨true, ["repo"]⟩ : Path) : Option Path) = some d)
    ∧ (envLocal.local_mode = false →
        (some (⟨true, ["repo"]⟩ : Path) : Option Path) = none) :=
  local_mode_wd_override envLocal (some ⟨true, ["repo"]⟩) ShellDef.defaultDef (by decide)

theorem parse_failure_aborts_witness :
    (main envParseFail).1 = Outcome.err ("Parsing Config: " ++ "unexpected token")
    ∧ Event.hideCursor ∉ (main envParseFail).2 :=
  ⟨(parse_failure_aborts_session envParseFail ⟨true, ["dotree.dt", "cfg"]⟩ none
      "menu {}" "unexpected token" rfl rfl rfl rfl).1,
   (parse_failure_aborts_session envParseFail ⟨true, ["dotree.dt", "cfg"]⟩ none
      "menu {}" "unexpected token" rfl rfl rfl rfl).2.2.1⟩

theorem default_config_path_selection_witness :
    resolveConfPath envXdg = .ok ((stringToPath "xdg").join "dotree.dt", none)
    ∧ main envNoDir = (Outcome.err "Couldn't determin config dir", []) :=
  ⟨(default_config_path_selection envXdg rfl rfl).1 "xdg" rfl,
   (default_config_path_selection envNoDir rfl rfl).2.2 rfl rfl⟩

end Dotree
